import Mathlib

/-
Verification development for the hanasu push-to-talk dictation daemon.

The Python sources are embedded shallowly: pure functions become Lean
functions, stateful methods become explicit state-passing functions that
return the new state together with a trace of observable effects, and
fallible code returns an error sum.  Python strings are modelled by Lean
strings; the string primitives the program uses (str.split on a separator,
str.strip, str.lower) are implemented over the character list of the
string so that all definitions evaluate on concrete inputs.
-/

namespace Hanasu

/-! ## Python string primitives -/

/-- Splitting a character list at a separator character, mirroring Python
str.split with a one-character separator: consecutive separators produce
empty fields and the empty string yields a single empty field. -/
def splitChar (sep : Char) : List Char → List (List Char)
  | [] => [[]]
  | c :: rest =>
    let r := splitChar sep rest
    if c = sep then [] :: r
    else
      match r with
      | [] => [[c]]
      | t :: ts => (c :: t) :: ts

/-- Whitespace trimming on a character list, mirroring Python str.strip
with no arguments (ASCII whitespace suffices for the program's inputs). -/
def trimChars (cs : List Char) : List Char :=
  ((cs.dropWhile Char.isWhitespace).reverse.dropWhile Char.isWhitespace).reverse

/-- Python str.strip modelled on Lean strings. -/
def pyTrim (s : String) : String := String.mk (trimChars s.data)

/-- Python str.lower modelled on Lean strings (ASCII case mapping). -/
def pyLower (s : String) : String := String.mk (s.data.map Char.toLower)

/-- Python hotkey_str.split with separator the plus sign. -/
def pySplitPlus (s : String) : List String := (splitChar '+' s.data).map String.mk

/-! ## src/hanasu/hotkey.py — modifier masks and key tables

The Quartz modifier-flag constants used by the source
(kCGEventFlagMask{Shift,Control,Alternate,Command}) with their macOS
values. -/

def kCGEventFlagMaskShift : Nat := 1 <<< 17

def kCGEventFlagMaskControl : Nat := 1 <<< 18

def kCGEventFlagMaskAlternate : Nat := 1 <<< 19

def kCGEventFlagMaskCommand : Nat := 1 <<< 20

/-- KEYCODE_MAP from src/hanasu/hotkey.py lines 21-99: key names to macOS
virtual key codes, as a lookup function. -/
def KEYCODE_MAP : String → Option Nat
  | "a" => some 0
  | "b" => some 11
  | "c" => some 8
  | "d" => some 2
  | "e" => some 14
  | "f" => some 3
  | "g" => some 5
  | "h" => some 4
  | "i" => some 34
  | "j" => some 38
  | "k" => some 40
  | "l" => some 37
  | "m" => some 46
  | "n" => some 45
  | "o" => some 31
  | "p" => some 35
  | "q" => some 12
  | "r" => some 15
  | "s" => some 1
  | "t" => some 17
  | "u" => some 32
  | "v" => some 9
  | "w" => some 13
  | "x" => some 7
  | "y" => some 16
  | "z" => some 6
  | "0" => some 29
  | "1" => some 18
  | "2" => some 19
  | "3" => some 20
  | "4" => some 21
  | "5" => some 23
  | "6" => some 22
  | "7" => some 26
  | "8" => some 28
  | "9" => some 25
  | "space" => some 49
  | "enter" => some 36
  | "return" => some 36
  | "tab" => some 48
  | "escape" => some 53
  | "esc" => some 53
  | "backspace" => some 51
  | "delete" => some 51
  | "forwarddelete" => some 117
  | "up" => some 126
  | "down" => some 125
  | "left" => some 123
  | "right" => some 124
  | "home" => some 115
  | "end" => some 119
  | "pageup" => some 116
  | "pagedown" => some 121
  | "f1" => some 122
  | "f2" => some 120
  | "f3" => some 99
  | "f4" => some 118
  | "f5" => some 96
  | "f6" => some 97
  | "f7" => some 98
  | "f8" => some 100
  | "f9" => some 101
  | "f10" => some 109
  | "f11" => some 103
  | "f12" => some 111
  | "f13" => some 105
  | "f14" => some 107
  | "f15" => some 113
  | "f16" => some 106
  | "f17" => some 64
  | "f18" => some 79
  | "f19" => some 80
  | "f20" => some 90
  | _ => none

/-- MODIFIER_FLAGS from src/hanasu/hotkey.py lines 102-111: modifier
aliases to Quartz flags, as a lookup function. -/
def MODIFIER_FLAGS : String → Option Nat
  | "cmd" => some kCGEventFlagMaskCommand
  | "command" => some kCGEventFlagMaskCommand
  | "meta" => some kCGEventFlagMaskCommand
  | "shift" => some kCGEventFlagMaskShift
  | "alt" => some kCGEventFlagMaskAlternate
  | "option" => some kCGEventFlagMaskAlternate
  | "ctrl" => some kCGEventFlagMaskControl
  | "control" => some kCGEventFlagMaskControl
  | _ => none

/-- The error cases raised by parse_hotkey, one constructor per distinct
message in src/hanasu/hotkey.py lines 126-144. -/
inductive HotkeyParseError where
  | emptyHotkey
  | multipleKeys
  | unknownKey (token : String)
  | noKey
deriving DecidableEq, Repr

/-- The parsed hotkey: combined modifier flag mask and virtual key code
(the dict returned by parse_hotkey). -/
structure HotkeySpec where
  modifier_mask : Nat
  keycode : Nat
deriving DecidableEq, Repr

deriving instance DecidableEq for Except

/-- The token loop of parse_hotkey (src/hanasu/hotkey.py lines 130-144):
each part is first looked up as a modifier alias, then as a key name;
a second key token raises, an unknown token raises, and a missing key
token raises after the loop. -/
def parseParts : List String → Nat → Option Nat → Except HotkeyParseError HotkeySpec
  | [], modifier_mask, keycode =>
    match keycode with
    | some k => Except.ok { modifier_mask := modifier_mask, keycode := k }
    | none => Except.error HotkeyParseError.noKey
  | part :: rest, modifier_mask, keycode =>
    match MODIFIER_FLAGS part with
    | some flag => parseParts rest (modifier_mask ||| flag) keycode
    | none =>
      match KEYCODE_MAP part with
      | some k =>
        match keycode with
        | some _ => Except.error HotkeyParseError.multipleKeys
        | none => parseParts rest modifier_mask (some k)
      | none => Except.error (HotkeyParseError.unknownKey part)

/-- Normalisation applied to each part: p.strip().lower()
(src/hanasu/hotkey.py line 129). -/
def normTok (p : String) : String := pyLower (pyTrim p)

/-- parse_hotkey from src/hanasu/hotkey.py lines 114-149: reject empty or
whitespace-only input, split on the plus sign, strip and lower-case each
part, then classify the parts. -/
def parse_hotkey (hotkey_str : String) : Except HotkeyParseError HotkeySpec :=
  if pyTrim hotkey_str = "" then Except.error HotkeyParseError.emptyHotkey
  else parseParts ((pySplitPlus hotkey_str).map normTok) 0 none

/-- The normalised token list of a hotkey string. -/
def tokenList (s : String) : List String := (pySplitPlus s).map normTok

/-- A token the parser recognises: a modifier alias or a key name. -/
def isKnownTok (t : String) : Bool :=
  (MODIFIER_FLAGS t).isSome || (KEYCODE_MAP t).isSome

/-- A non-modifier (key) token: classified as a key because the modifier
lookup is tried first. -/
def isKeyTok (t : String) : Bool :=
  (MODIFIER_FLAGS t).isNone && (KEYCODE_MAP t).isSome

/-- The inputs on which parse_hotkey succeeds: non-blank, every token
known, exactly one key token. -/
def goodHotkey (s : String) : Bool :=
  !(pyTrim s == "") && (tokenList s).all isKnownTok &&
    ((tokenList s).countP isKeyTok == 1)

/-- Equivalence of raw tokens up to case, surrounding whitespace, and
substituting a modifier alias for another alias of the same modifier. -/
def tokenEquiv (a b : String) : Prop :=
  normTok a = normTok b ∨
    (MODIFIER_FLAGS (normTok a) ≠ none ∧
      MODIFIER_FLAGS (normTok a) = MODIFIER_FLAGS (normTok b))

instance (a b : String) : Decidable (tokenEquiv a b) := by
  unfold tokenEquiv; infer_instance

/-! ## src/hanasu/hotkey.py — the event-tap callback -/

/-- The event types delivered to the callback: the tap mask selects
key-down and key-up, and the system may additionally deliver the
tap-disabled-by-timeout signal. -/
inductive CGEventType where
  | keyDown
  | keyUp
  | tapDisabledByTimeout
deriving DecidableEq, Repr

/-- A keyboard event as read by the callback: type, virtual key code and
modifier flag bits. -/
structure CGEvent where
  eventType : CGEventType
  keycode : Nat
  flags : Nat
deriving DecidableEq, Repr

/-- The four tracked modifier bits, the mask applied to observed flags in
the callback (src/hanasu/hotkey.py lines 240-245). -/
def trackedModifierMask : Nat :=
  kCGEventFlagMaskCommand ||| kCGEventFlagMaskShift |||
    kCGEventFlagMaskAlternate ||| kCGEventFlagMaskControl

/-- Result of one callback invocation: the new held flag, whether the
event was suppressed (the callback returned None) rather than forwarded,
and which of the two user callbacks fired. -/
structure CallbackResult where
  hotkey_active : Bool
  suppressed : Bool
  pressFired : Bool
  releaseFired : Bool
deriving DecidableEq, Repr

/-- HotkeyListener._event_callback from src/hanasu/hotkey.py lines
224-263, as a pure transition on the held flag.  A tap-disabled signal is
passed through; otherwise the observed flags are masked to the tracked
modifiers and compared with the parsed hotkey, a matching key-down fires
on_press only when the held flag was clear, a matching key-up fires
on_release only when it was set, matching events are suppressed either
way, and non-matching events are forwarded. -/
def event_callback (cfg : HotkeySpec) (hotkey_active : Bool) (e : CGEvent) : CallbackResult :=
  if e.eventType = CGEventType.tapDisabledByTimeout then
    { hotkey_active := hotkey_active, suppressed := false,
      pressFired := false, releaseFired := false }
  else if e.keycode = cfg.keycode ∧ e.flags &&& trackedModifierMask = cfg.modifier_mask then
    if e.eventType = CGEventType.keyDown then
      if hotkey_active = false then
        { hotkey_active := true, suppressed := true,
          pressFired := true, releaseFired := false }
      else
        { hotkey_active := hotkey_active, suppressed := true,
          pressFired := false, releaseFired := false }
    else
      if hotkey_active = true then
        { hotkey_active := false, suppressed := true,
          pressFired := false, releaseFired := true }
      else
        { hotkey_active := hotkey_active, suppressed := true,
          pressFired := false, releaseFired := false }
  else
    { hotkey_active := hotkey_active, suppressed := false,
      pressFired := false, releaseFired := false }

/-- Whether an event matches the hotkey, exactly the comparison performed
in the callback. -/
def eventMatches (cfg : HotkeySpec) (e : CGEvent) : Prop :=
  e.keycode = cfg.keycode ∧ e.flags &&& trackedModifierMask = cfg.modifier_mask

instance (cfg : HotkeySpec) (e : CGEvent) : Decidable (eventMatches cfg e) := by
  unfold eventMatches; infer_instance

/-- Run the callback over a sequence of events, counting how many times
on_press and on_release fire. -/
def processEvents (cfg : HotkeySpec) (hotkey_active : Bool) :
    List CGEvent → Bool × Nat × Nat
  | [] => (hotkey_active, 0, 0)
  | e :: rest =>
    let r := event_callback cfg hotkey_active e
    let rec1 := processEvents cfg r.hotkey_active rest
    (rec1.1, (if r.pressFired then 1 else 0) + rec1.2.1,
      (if r.releaseFired then 1 else 0) + rec1.2.2)

/-! ## src/hanasu/recorder.py — the audio recorder

Audio samples are abstract values; their numeric type plays no role in
the buffer lifecycle, so they are modelled as integers. -/

abbrev Sample := Int

/-- The recorder's mutable state: the list of buffered chunks, the armed
flag read by the audio callback, and whether a stream is open. -/
structure RecorderState where
  buffer : List (List Sample)
  recording : Bool
  streamOpen : Bool
deriving DecidableEq, Repr

namespace Recorder

/-- Recorder._audio_callback (src/hanasu/recorder.py lines 63-66): append
the delivered chunk to the buffer only while armed. -/
def audio_callback (s : RecorderState) (chunk : List Sample) : RecorderState :=
  if s.recording then { s with buffer := s.buffer ++ [chunk] } else s

/-- Recorder.start (src/hanasu/recorder.py lines 68-84): clear the
buffer, arm, and open a fresh input stream.  The device-list refresh is
best-effort and does not affect the modelled state. -/
def start (_s : RecorderState) : RecorderState :=
  { buffer := [], recording := true, streamOpen := true }

/-- Recorder.stop (src/hanasu/recorder.py lines 86-98): disarm, close the
stream, and return the concatenation of the buffered chunks (the empty
array when nothing was buffered).  The buffer itself is not cleared. -/
def stop (s : RecorderState) : RecorderState × List Sample :=
  ({ s with recording := false, streamOpen := false }, s.buffer.flatten)

end Recorder

/-! ## src/hanasu/transcriber.py — replacement rules

apply_replacements calls re.sub(re.escape(pattern), replacement, text,
flags=re.IGNORECASE).  re.escape makes the pattern match literally, so
matching is modelled as case-insensitive literal search; the replacement
argument however is a regex replacement template in which backslash
sequences are interpreted.  The template language is modelled after
CPython's template parser restricted to what a zero-group pattern admits:
the standard character escapes, a literal backslash, the whole-match
group reference, and backslash before a non-letter kept verbatim; a
backslash before an unknown ASCII letter, a numbered group reference
(the escaped pattern has no groups; multi-digit octal escapes are not
modelled), a malformed group reference, and a trailing backslash are
errors, as in CPython. -/

inductive ReplTemplateError where
  | badEscape (c : Char)
  | trailingBackslash
  | invalidGroupRef
deriving DecidableEq, Repr

/-- One piece of a parsed replacement template: a literal character or
the whole matched text. -/
inductive TemplateItem where
  | literal (c : Char)
  | wholeMatch
deriving DecidableEq, Repr

/-- The standard character escapes recognised in a replacement template. -/
def escapeChar (c : Char) : Option Char :=
  if c = 'a' then some (Char.ofNat 7)
  else if c = 'b' then some (Char.ofNat 8)
  else if c = 'f' then some (Char.ofNat 12)
  else if c = 'n' then some '\n'
  else if c = 'r' then some '\r'
  else if c = 't' then some '\t'
  else if c = 'v' then some (Char.ofNat 11)
  else if c = '\\' then some '\\'
  else none

/-- Parse a replacement template into items, mirroring CPython's
re-template parsing for a pattern with no capturing groups. -/
def parseTemplate : List Char → Except ReplTemplateError (List TemplateItem)
  | [] => Except.ok []
  | c :: rest =>
    if c = '\\' then
      match rest with
      | [] => Except.error ReplTemplateError.trailingBackslash
      | c2 :: rest2 =>
        if c2 = 'g' then
          match rest2 with
          | '<' :: '0' :: '>' :: rest3 =>
            (TemplateItem.wholeMatch :: ·) <$> parseTemplate rest3
          | _ => Except.error ReplTemplateError.invalidGroupRef
        else if c2 = '0' then
          (TemplateItem.literal (Char.ofNat 0) :: ·) <$> parseTemplate rest2
        else if c2.isDigit then Except.error ReplTemplateError.invalidGroupRef
        else
          match escapeChar c2 with
          | some ec => (TemplateItem.literal ec :: ·) <$> parseTemplate rest2
          | none =>
            if c2.isAlpha then Except.error (ReplTemplateError.badEscape c2)
            else
              (fun t => TemplateItem.literal '\\' :: TemplateItem.literal c2 :: t) <$>
                parseTemplate rest2
    else (TemplateItem.literal c :: ·) <$> parseTemplate rest

/-- Expand a parsed template against the matched slice of the text. -/
def expandTemplate (items : List TemplateItem) (matched : List Char) : List Char :=
  (items.map fun it =>
    match it with
    | TemplateItem.literal c => [c]
    | TemplateItem.wholeMatch => matched).flatten

/-- Case-insensitive equality of character lists, modelling matching
under re.IGNORECASE for the ASCII inputs the program handles. -/
def lowerEq (a b : List Char) : Bool :=
  a.map Char.toLower == b.map Char.toLower

/-- Scan for a non-empty literal pattern and replace each non-overlapping
occurrence left to right, expanding the template against the matched
slice of the original text, as re.sub does.  The scan consumes at least
one character per step, so the fuel argument — instantiated with the
text length — makes the recursion structural without changing the
result. -/
def subScanAux (pat : List Char) (items : List TemplateItem) :
    Nat → List Char → List Char
  | _, [] => []
  | 0, cs => cs
  | fuel + 1, c :: rest =>
    if pat ≠ [] ∧ lowerEq ((c :: rest).take pat.length) pat = true then
      expandTemplate items ((c :: rest).take pat.length) ++
        subScanAux pat items fuel ((c :: rest).drop pat.length)
    else c :: subScanAux pat items fuel rest

/-- The left-to-right replacement scan, fuelled by the text length. -/
def subScan (pat : List Char) (items : List TemplateItem) (text : List Char) :
    List Char :=
  subScanAux pat items text.length text

/-- The empty pattern matches at every position, so re.sub inserts the
expanded template before every character and at the end. -/
def subEmpty (items : List TemplateItem) : List Char → List Char
  | [] => expandTemplate items []
  | c :: rest => expandTemplate items [] ++ c :: subEmpty items rest

/-- One re.sub(re.escape(pattern), replacement, text, flags=IGNORECASE)
call: parse the template, then replace every occurrence. -/
def reSubEscapedIgnorecase (pattern repl text : String) :
    Except ReplTemplateError String := do
  let items ← parseTemplate repl.data
  if pattern.data.isEmpty then
    pure (String.mk (subEmpty items text.data))
  else
    pure (String.mk (subScan pattern.data items text.data))

/-- apply_replacements from src/hanasu/transcriber.py lines 74-91: fold
the replacement rules over the text in order, each applied through
re.sub as above (the dict is modelled as its insertion-ordered pair
list).  A template error raised by re.sub propagates. -/
def apply_replacements (text : String) (replacements : List (String × String)) :
    Except ReplTemplateError String :=
  match replacements with
  | [] => Except.ok text
  | _ =>
    replacements.foldlM (fun t pr => reSubEscapedIgnorecase pr.1 pr.2 t) text

/-- Modelled from the spec: the replacement step as the claim reads it —
every occurrence of each pattern replaced case-insensitively, the
replacement taken as literal text with no character interpreted
specially.  Used only to compare against apply_replacements. -/
def literal_replace_spec (text : String) (replacements : List (String × String)) : String :=
  replacements.foldl
    (fun t pr =>
      if pr.1.data.isEmpty then
        String.mk (subEmpty (pr.2.data.map TemplateItem.literal) t.data)
      else
        String.mk (subScan pr.1.data (pr.2.data.map TemplateItem.literal) t.data))
    text

/-! ## src/hanasu/config.py — configuration data -/

/-- The Config dataclass from src/hanasu/config.py lines 28-38. -/
structure Config where
  hotkey : String
  model : String
  language : String
  audio_device : Option String
  debug : Bool
  clear_clipboard : Bool
  last_output_dir : Option String
deriving DecidableEq, Repr

/-- VALID_MODELS from src/hanasu/config.py line 17. -/
def VALID_MODELS : List String := ["tiny", "base", "small", "medium", "large"]

/-! ## src/hanasu/main.py — the orchestrator

The Hanasu object's mutable attributes become an explicit state record;
each handler returns the new state and the ordered trace of observable
effects it performed (recorder and listener calls, persistence writes,
UI notifications, transcription-engine constructions and calls, text
injection). -/

/-- The relevant state of a HotkeyListener instance: its parsed hotkey,
the held flag, and whether its event tap is running. -/
structure ListenerState where
  hotkey_config : HotkeySpec
  hotkey_active : Bool
  running : Bool
deriving DecidableEq, Repr

namespace HotkeyListener

/-- HotkeyListener.__init__ (src/hanasu/hotkey.py lines 155-176): parse
the hotkey string — raising HotkeyParseError on an invalid one — and
start with the held flag clear and no tap running. -/
def new (hotkey : String) : Except HotkeyParseError ListenerState :=
  match parse_hotkey hotkey with
  | Except.error e => Except.error e
  | Except.ok cfg =>
    Except.ok { hotkey_config := cfg, hotkey_active := false, running := false }

end HotkeyListener

/-- HotkeyListener.start: the tap thread is launched. -/
def ListenerState.startTap (l : ListenerState) : ListenerState := { l with running := true }

/-- HotkeyListener.stop: the tap is disabled and the thread joined. -/
def ListenerState.stopTap (l : ListenerState) : ListenerState := { l with running := false }

/-- Observable effects performed by the orchestrator's handlers, in
execution order. -/
inductive Effect where
  | recorderStart
  | recorderStop
  | listenerStop
  | listenerStart
  | saveConfig (c : Config)
  | transcribeCall (audio : List Sample)
  | injectText (text : String) (clear_after : Bool)
  | uiSetRecording (b : Bool)
  | uiSetHotkey (s : String)
  | uiSetCurrentModel (m : String)
  | uiSetModelDownloading (m : String) (b : Bool)
  | uiRefreshModelStates
  | constructTranscriber (m : String)
  | downloadModelCall (m : String)
deriving DecidableEq, Repr

/-- The Hanasu object's mutable attributes (src/hanasu/main.py lines
68-100): configuration, recorder, hotkey listener, the active
transcriber's model, the recording flag, whether the menu-bar app is
attached, and the model-change guard. -/
structure AppState where
  config : Config
  recorder : RecorderState
  listener : ListenerState
  transcriber_model : String
  recording : Bool
  menubar : Bool
  model_change_in_progress : Bool
deriving DecidableEq, Repr

/-- Hanasu._on_hotkey_press (src/hanasu/main.py lines 355-367): ignored
while already recording; otherwise set the flag, start the recorder and
notify the menu bar. -/
def on_hotkey_press (s : AppState) : AppState × List Effect :=
  if s.recording then (s, [])
  else
    let s1 := { s with recording := true, recorder := Recorder.start s.recorder }
    (s1, [Effect.recorderStart] ++
      (if s.menubar then [Effect.uiSetRecording true] else []))

/-- Hanasu._on_hotkey_release (src/hanasu/main.py lines 369-400).  The
initial guard on the recording flag is a pass statement, so execution
always continues: clear the flag, stop the recorder, notify the menu
bar, drop buffers that are empty or shorter than 8000 samples, otherwise
transcribe and, when the returned text is non-empty, inject it.  The
transcription result is supplied by the function argument, which stands
for the external engine. -/
def on_hotkey_release (tf : List Sample → String) (s : AppState) :
    AppState × List Effect :=
  let s1 := { s with recording := false }
  let stopped := Recorder.stop s1.recorder
  let s2 := { s1 with recorder := stopped.1 }
  let audio := stopped.2
  let fx0 := [Effect.recorderStop] ++
    (if s2.menubar then [Effect.uiSetRecording false] else [])
  if audio.length = 0 then (s2, fx0)
  else if audio.length < 8000 then (s2, fx0)
  else
    let text := tf audio
    let fx1 := fx0 ++ [Effect.transcribeCall audio]
    if text ≠ "" then
      (s2, fx1 ++ [Effect.injectText text s2.config.clear_clipboard])
    else (s2, fx1)

/-- Hanasu.change_hotkey (src/hanasu/main.py lines 102-132): stop the
current listener, construct a new one — on a parse failure the exception
propagates to the caller with the old listener left stopped — then
update and save the configuration, start the new listener and update the
menu bar.  The third component is the raised exception, if any. -/
def change_hotkey (new_hotkey : String) (s : AppState) :
    AppState × List Effect × Option HotkeyParseError :=
  let s1 := { s with listener := s.listener.stopTap }
  match HotkeyListener.new new_hotkey with
  | Except.error e => (s1, [Effect.listenerStop], some e)
  | Except.ok nl =>
    let cfg := { s1.config with hotkey := new_hotkey }
    let s2 := { s1 with config := cfg, listener := nl.startTap }
    (s2, [Effect.listenerStop, Effect.saveConfig cfg, Effect.listenerStart] ++
      (if s2.menubar then [Effect.uiSetHotkey new_hotkey] else []), none)

/-- Hanasu._on_hotkey_change (src/hanasu/main.py lines 294-353): reject
an empty hotkey, stop any in-progress recording (discarding the stop's
return value), stop the old listener, then try to construct the new one;
on failure the old listener is restarted and the error is only printed,
on success the configuration is rebuilt and saved, the new listener is
started, and the menu bar is updated. -/
def on_hotkey_change (new_hotkey : String) (s : AppState) : AppState × List Effect :=
  if pyTrim new_hotkey = "" then (s, [])
  else
    let stopRec :=
      if s.recording then
        let stopped := Recorder.stop s.recorder
        ({ s with recording := false, recorder := stopped.1 },
          [Effect.recorderStop] ++
            (if s.menubar then [Effect.uiSetRecording false] else []))
      else (s, ([] : List Effect))
    let s1 := stopRec.1
    let fx1 := stopRec.2
    let s2 := { s1 with listener := s1.listener.stopTap }
    let fx2 := fx1 ++ [Effect.listenerStop]
    match HotkeyListener.new new_hotkey with
    | Except.error _ =>
      ({ s2 with listener := s2.listener.startTap }, fx2 ++ [Effect.listenerStart])
    | Except.ok nl =>
      let cfg := { s2.config with hotkey := new_hotkey }
      let s3 := { s2 with config := cfg, listener := nl.startTap }
      (s3, fx2 ++ [Effect.saveConfig cfg, Effect.listenerStart] ++
        (if s3.menubar then [Effect.uiSetHotkey new_hotkey] else []))

/-- Outcomes of the external steps performed during a model swap: whether
the model is already cached, and whether the download and the Transcriber
construction succeed or raise. -/
structure ModelSwapEnv where
  is_model_cached : Bool
  download_ok : Bool
  construct_ok : Bool
deriving DecidableEq, Repr

/-- The tail of do_change after the download phase (src/hanasu/main.py
lines 176-201): construct the new Transcriber — a failure propagates out
through the finally that clears the guard — then atomically adopt the
new model, rebuild and save the configuration, update the menu bar, and
clear the guard. -/
def swapConstruct (env : ModelSwapEnv) (new_model : String) (s : AppState)
    (fx : List Effect) : AppState × List Effect :=
  let fx1 := fx ++ [Effect.constructTranscriber new_model]
  if env.construct_ok = false then
    ({ s with model_change_in_progress := false }, fx1)
  else
    let cfg := { s.config with model := new_model }
    let s1 := { s with
      transcriber_model := new_model
      config := cfg
      model_change_in_progress := false }
    (s1, fx1 ++ [Effect.saveConfig cfg] ++
      (if s.menubar then [Effect.uiSetCurrentModel new_model,
        Effect.uiRefreshModelStates] else []))

/-- The do_change closure of change_model (src/hanasu/main.py lines
164-201), run to completion: download the model when it is not cached —
the downloading indicator is cleared in a finally even when the download
raises, and a raised download error exits through the outer finally
clearing the guard — then construct and commit. -/
def do_change (env : ModelSwapEnv) (new_model : String) (s : AppState) :
    AppState × List Effect :=
  if env.is_model_cached then swapConstruct env new_model s []
  else
    let fx0 := (if s.menubar then [Effect.uiSetModelDownloading new_model true] else []) ++
      [Effect.downloadModelCall new_model] ++
      (if s.menubar then [Effect.uiSetModelDownloading new_model false] else [])
    if env.download_ok then swapConstruct env new_model s fx0
    else ({ s with model_change_in_progress := false }, fx0)

/-- Hanasu.change_model (src/hanasu/main.py lines 134-203): return
silently when the model is not a valid size, equals the current one, a
recording is in progress, or another change is in progress; otherwise
set the guard and run the swap (the background thread is inlined and run
to completion). -/
def change_model (env : ModelSwapEnv) (new_model : String) (s : AppState) :
    AppState × List Effect :=
  if VALID_MODELS.contains new_model = false then (s, [])
  else if new_model = s.config.model then (s, [])
  else if s.recording then (s, [])
  else if s.model_change_in_progress then (s, [])
  else do_change env new_model { s with model_change_in_progress := true }

/-! ## Effect classification helpers and concrete fixture states -/

/-- Recogniser for persistence writes in an effect trace. -/
def isSaveConfig : Effect → Bool
  | Effect.saveConfig _ => true
  | _ => false

/-- Recogniser for calls into the transcription engine. -/
def isTranscribeCall : Effect → Bool
  | Effect.transcribeCall _ => true
  | _ => false

/-- Recogniser for text injections. -/
def isInjectText : Effect → Bool
  | Effect.injectText _ _ => true
  | _ => false

/-- Recogniser for transcription-engine constructions. -/
def isConstructTranscriber : Effect → Bool
  | Effect.constructTranscriber _ => true
  | _ => false

/-- Recogniser for recorder stops. -/
def isRecorderStop : Effect → Bool
  | Effect.recorderStop => true
  | _ => false

/-- The default configuration (DEFAULT_CONFIG in src/hanasu/config.py
lines 49-57), used as a concrete fixture. -/
def defaultConfig : Config :=
  { hotkey := "cmd+alt+v", model := "small", language := "en",
    audio_device := none, debug := false, clear_clipboard := false,
    last_output_dir := none }

/-- A concrete idle application state: default configuration, empty
recorder, the listener for cmd+alt+v installed and running, menu bar
attached. -/
def idleState : AppState :=
  { config := defaultConfig,
    recorder := { buffer := [], recording := false, streamOpen := false },
    listener :=
      { hotkey_config :=
          { modifier_mask := kCGEventFlagMaskCommand ||| kCGEventFlagMaskAlternate,
            keycode := 9 },
        hotkey_active := false, running := true },
    transcriber_model := "small", recording := false, menubar := true,
    model_change_in_progress := false }

/-- The idle state with a recording in progress. -/
def recordingState : AppState :=
  { idleState with
    recording := true
    recorder := { buffer := [[1], [2]], recording := true, streamOpen := true } }

/-- The idle state with the residue of a previous recording still in the
recorder's buffer: one 8000-sample chunk. -/
def staleBufferState : AppState :=
  { idleState with
    recorder :=
      { buffer := [List.replicate 8000 0], recording := false, streamOpen := false } }

/-! ## Helper lemmas -/

/-- Feed a sequence of chunks through the audio callback. -/
def feedChunks (s : RecorderState) (cks : List (List Sample)) : RecorderState :=
  cks.foldl Recorder.audio_callback s

lemma feedChunks_spec (cks : List (List Sample)) (s : RecorderState)
    (h : s.recording = true) :
    (feedChunks s cks).buffer = s.buffer ++ cks ∧
      (feedChunks s cks).recording = true := by
  induction cks generalizing s with
  | nil => simp [feedChunks, h]
  | cons c rest ih =>
    have step : Recorder.audio_callback s c =
        { s with buffer := s.buffer ++ [c] } := by
      simp [Recorder.audio_callback, h]
    have ihs := ih { s with buffer := s.buffer ++ [c] } (by simp [h])
    simp only [feedChunks, List.foldl_cons, step] at *
    exact ⟨by rw [ihs.1]; simp, ihs.2⟩

lemma event_callback_matched_down (cfg : HotkeySpec) (active : Bool) (e : CGEvent)
    (hm : eventMatches cfg e) (ht : e.eventType = CGEventType.keyDown) :
    event_callback cfg active e =
      { hotkey_active := true, suppressed := true, pressFired := !active,
        releaseFired := false } := by
  obtain ⟨h1, h2⟩ := hm
  cases active <;> simp [event_callback, ht, h1, h2]

lemma event_callback_matched_up (cfg : HotkeySpec) (active : Bool) (e : CGEvent)
    (hm : eventMatches cfg e) (ht : e.eventType = CGEventType.keyUp) :
    event_callback cfg active e =
      { hotkey_active := false, suppressed := true, pressFired := false,
        releaseFired := active } := by
  obtain ⟨h1, h2⟩ := hm
  cases active <;> simp [event_callback, ht, h1, h2]

lemma event_callback_unmatched (cfg : HotkeySpec) (active : Bool) (e : CGEvent)
    (hm : ¬ eventMatches cfg e) (ht : e.eventType ≠ CGEventType.tapDisabledByTimeout) :
    event_callback cfg active e =
      { hotkey_active := active, suppressed := false, pressFired := false,
        releaseFired := false } := by
  rw [eventMatches] at hm
  simp [event_callback, ht, hm]

lemma on_hotkey_release_trace (tf : List Sample → String) (s : AppState) :
    (on_hotkey_release tf s).2 =
      [Effect.recorderStop] ++
        (if s.menubar then [Effect.uiSetRecording false] else []) ++
        (if s.recorder.buffer.flatten.length = 0 then []
         else if s.recorder.buffer.flatten.length < 8000 then []
         else [Effect.transcribeCall s.recorder.buffer.flatten] ++
           (if tf s.recorder.buffer.flatten = "" then []
            else [Effect.injectText (tf s.recorder.buffer.flatten)
              s.config.clear_clipboard])) := by
  unfold on_hotkey_release Recorder.stop
  dsimp only
  split_ifs <;> simp_all

lemma on_hotkey_release_state (tf : List Sample → String) (s : AppState) :
    (on_hotkey_release tf s).1 =
      { s with
        recording := false
        recorder := { s.recorder with recording := false, streamOpen := false } } := by
  unfold on_hotkey_release Recorder.stop
  dsimp only
  split_ifs
  all_goals rfl

lemma do_change_clears_flag (env : ModelSwapEnv) (m : String) (s : AppState) :
    (do_change env m s).1.model_change_in_progress = false := by
  unfold do_change swapConstruct
  repeat' split
  all_goals simp

/-! ## Claim C10 -/

/-- C10 (implicit claim): Recorder.stop does not clear the recorded
buffer — only Recorder.start resets it — so two consecutive stop calls
with no intervening start return equal arrays, and in particular a stop
issued after a completed start/feed/stop cycle returns the previous
recording's samples again rather than an empty array. -/
theorem C10_stop_preserves_buffer :
    (∀ s : RecorderState, (Recorder.stop (Recorder.stop s).1).2 = (Recorder.stop s).2) ∧
    (∀ s : RecorderState, (Recorder.stop s).1.buffer = s.buffer) ∧
    (∀ s : RecorderState, (Recorder.start s).buffer = []) ∧
    (∀ (s : RecorderState) (cks : List (List Sample)),
      (Recorder.stop (Recorder.stop (feedChunks (Recorder.start s) cks)).1).2 =
        (Recorder.stop (feedChunks (Recorder.start s) cks)).2 ∧
      (Recorder.stop (feedChunks (Recorder.start s) cks)).2 = cks.flatten) := by
  refine ⟨fun s => rfl, fun s => rfl, fun s => rfl, fun s cks => ?_⟩
  have h := feedChunks_spec cks (Recorder.start s) (by simp [Recorder.start])
  constructor
  · rfl
  · have hstop : (Recorder.stop (feedChunks (Recorder.start s) cks)).2 =
        (feedChunks (Recorder.start s) cks).buffer.flatten := rfl
    rw [hstop, h.1]
    simp [Recorder.start]

/-! ## Claim C7 -/

/-- C7: in the capture callback, a matched key-down fires on_press only
when the held flag is false and sets it, a matched key-up fires
on_release only when the flag is true and clears it, matched events are
always suppressed, non-matching events are forwarded unchanged; hence
two consecutive matched key-downs fire on_press exactly once and a
matched key-up with no prior matched key-down fires on_release zero
times. -/
theorem C7_held_flag_discipline :
    (∀ (cfg : HotkeySpec) (active : Bool) (e : CGEvent),
      eventMatches cfg e → e.eventType = CGEventType.keyDown →
      event_callback cfg active e =
        { hotkey_active := true, suppressed := true, pressFired := !active,
          releaseFired := false }) ∧
    (∀ (cfg : HotkeySpec) (active : Bool) (e : CGEvent),
      eventMatches cfg e → e.eventType = CGEventType.keyUp →
      event_callback cfg active e =
        { hotkey_active := false, suppressed := true, pressFired := false,
          releaseFired := active }) ∧
    (∀ (cfg : HotkeySpec) (active : Bool) (e : CGEvent),
      ¬ eventMatches cfg e → e.eventType ≠ CGEventType.tapDisabledByTimeout →
      event_callback cfg active e =
        { hotkey_active := active, suppressed := false, pressFired := false,
          releaseFired := false }) ∧
    (∀ (cfg : HotkeySpec) (e e2 : CGEvent),
      eventMatches cfg e → eventMatches cfg e2 →
      e.eventType = CGEventType.keyDown → e2.eventType = CGEventType.keyDown →
      processEvents cfg false [e, e2] = (true, 1, 0)) ∧
    (∀ (cfg : HotkeySpec) (e : CGEvent),
      eventMatches cfg e → e.eventType = CGEventType.keyUp →
      processEvents cfg false [e] = (false, 0, 0)) := by
  refine ⟨event_callback_matched_down, event_callback_matched_up,
    event_callback_unmatched, ?_, ?_⟩
  · intro cfg e e2 hm hm2 ht ht2
    simp [processEvents, event_callback_matched_down cfg false e hm ht,
      event_callback_matched_down cfg true e2 hm2 ht2]
  · intro cfg e hm ht
    simp [processEvents, event_callback_matched_up cfg false e hm ht]

/-- C7 witness: the conjuncts with hypotheses applied at the cmd+d
hotkey and concrete key events. -/
theorem C7_held_flag_discipline_witness :
    (event_callback { modifier_mask := kCGEventFlagMaskCommand, keycode := 2 } false
        { eventType := CGEventType.keyDown, keycode := 2,
          flags := kCGEventFlagMaskCommand } =
      { hotkey_active := true, suppressed := true, pressFired := true,
        releaseFired := false }) ∧
    (event_callback { modifier_mask := kCGEventFlagMaskCommand, keycode := 2 } false
        { eventType := CGEventType.keyUp, keycode := 2,
          flags := kCGEventFlagMaskCommand } =
      { hotkey_active := false, suppressed := true, pressFired := false,
        releaseFired := false }) ∧
    (event_callback { modifier_mask := kCGEventFlagMaskCommand, keycode := 2 } false
        { eventType := CGEventType.keyDown, keycode := 3, flags := 0 } =
      { hotkey_active := false, suppressed := false, pressFired := false,
        releaseFired := false }) ∧
    (processEvents { modifier_mask := kCGEventFlagMaskCommand, keycode := 2 } false
        [{ eventType := CGEventType.keyDown, keycode := 2,
            flags := kCGEventFlagMaskCommand },
          { eventType := CGEventType.keyDown, keycode := 2,
            flags := kCGEventFlagMaskCommand }] = (true, 1, 0)) ∧
    (processEvents { modifier_mask := kCGEventFlagMaskCommand, keycode := 2 } false
        [{ eventType := CGEventType.keyUp, keycode := 2,
            flags := kCGEventFlagMaskCommand }] = (false, 0, 0)) := by
  refine ⟨C7_held_flag_discipline.1 _ _ _ (by decide) rfl,
    C7_held_flag_discipline.2.1 _ _ _ (by decide) rfl,
    C7_held_flag_discipline.2.2.1 _ _ _ (by decide) (by decide),
    C7_held_flag_discipline.2.2.2.1 _ _ _ (by decide) (by decide) rfl rfl,
    C7_held_flag_discipline.2.2.2.2 _ _ (by decide) rfl⟩

/-! ## Claim C8 -/

/-- C8: change_model is a silent no-op — identical state, no effects at
all, so in particular zero transcription-engine constructions and zero
persistence writes and an unchanged recording flag — whenever the new
model is not a recognised size, or equals the current model, or a
recording is in progress, or another swap is in progress; and when a
swap does run, the model_change_in_progress guard is clear on every exit
path, whatever the download and construction outcomes. -/
theorem C8_change_model_guards (env : ModelSwapEnv) (m : String) (s : AppState) :
    (VALID_MODELS.contains m = false ∨ m = s.config.model ∨ s.recording = true ∨
        s.model_change_in_progress = true →
      change_model env m s = (s, [])) ∧
    (VALID_MODELS.contains m = true → m ≠ s.config.model → s.recording = false →
      s.model_change_in_progress = false →
      (change_model env m s).1.model_change_in_progress = false) := by
  constructor
  · intro h
    unfold change_model
    rcases h with h | h | h | h <;> repeat' split
    all_goals simp_all
  · intro h1 h2 h3 h4
    have h1m : m ∈ VALID_MODELS := by simpa using h1
    simp [change_model, h1, h1m, h2, h3, h4, do_change_clears_flag]

/-- C8 witness: the guarded no-op at a concrete refused call (swapping
to the already-active small model) and the guard clearing at a concrete
swap whose construction fails. -/
theorem C8_change_model_guards_witness :
    change_model { is_model_cached := true, download_ok := true, construct_ok := true }
        "small" idleState = (idleState, []) ∧
    (change_model { is_model_cached := false, download_ok := true, construct_ok := false }
        "medium" idleState).1.model_change_in_progress = false :=
  ⟨(C8_change_model_guards _ "small" idleState).1 (Or.inr (Or.inl (by decide))),
    (C8_change_model_guards _ "medium" idleState).2 (by decide) (by decide)
      (by decide) (by decide)⟩

/-! ## Claim C2 -/

/-- C2 (code bug): _on_hotkey_release invoked while the orchestrator is
Idle is not a no-op.  At the concrete failing input — Idle with the
previous recording's 8000-sample buffer still in the recorder — the
handler stops the recorder, notifies the UI, and re-transcribes and
re-injects the stale buffer: the initial recording-flag guard in the
source is a pass statement rather than a return. -/
theorem C2_release_while_idle_divergence :
    staleBufferState.recording = false ∧
    (on_hotkey_release (fun _ => "hello") staleBufferState).2 =
      [Effect.recorderStop, Effect.uiSetRecording false,
        Effect.transcribeCall (List.replicate 8000 0),
        Effect.injectText "hello" false] ∧
    (on_hotkey_release (fun _ => "hello") staleBufferState).2.countP
        isTranscribeCall = 1 := by
  have hbuf : staleBufferState.recorder.buffer.flatten =
      List.replicate 8000 (0 : Sample) := by
    simp only [staleBufferState, idleState, List.flatten_cons, List.flatten_nil,
      List.append_nil]
  have hlen : (List.replicate 8000 (0 : Sample)).length = 8000 :=
    List.length_replicate 8000 0
  have htr := on_hotkey_release_trace (fun _ => "hello") staleBufferState
  rw [hbuf, hlen] at htr
  have hmb : staleBufferState.menubar = true := rfl
  have hcc : staleBufferState.config.clear_clipboard = false := rfl
  rw [hmb, hcc] at htr
  rw [if_neg (by norm_num : ¬ ((8000 : Nat) = 0)),
    if_neg (by norm_num : ¬ ((8000 : Nat) < 8000)),
    if_neg (by decide : ¬ (("hello" : String) = "")), if_pos rfl] at htr
  refine ⟨rfl, ?_, ?_⟩
  · rw [htr]
    exact rfl
  · rw [htr]
    simp only [List.append_assoc, List.cons_append, List.nil_append,
      List.countP_cons, List.countP_nil, isTranscribeCall]
    norm_num

/-! ## Claim C1 counterexample -/

/-- C1 counterexample: on the direct change_hotkey entry point an
unparsable hotkey does raise the parse error and leaves the persisted
configuration unchanged, but the previously active capture is left
stopped, not running — the old listener is stopped before the new
construction is attempted and is not restarted on failure. -/
theorem C1_counterexample :
    idleState.listener.running = true ∧
    (parse_hotkey "bogus").isOk = false ∧
    (change_hotkey "bogus" idleState).2.2 =
      some (HotkeyParseError.unknownKey "bogus") ∧
    (change_hotkey "bogus" idleState).1.config = idleState.config ∧
    (change_hotkey "bogus" idleState).1.listener.running = false := by decide

/-! ## Claim C3 counterexample -/

/-- C3 counterexample: the direct change_hotkey entry point does not
cancel an in-flight recording — invoked while Recording with a valid new
hotkey it never stops the recorder and leaves the recording flag set, so
the claimed transition to Idle does not hold on every rebinding entry
point. -/
theorem C3_counterexample :
    recordingState.recording = true ∧
    (parse_hotkey "cmd+d").isOk = true ∧
    (change_hotkey "cmd+d" recordingState).1.recording = true ∧
    (change_hotkey "cmd+d" recordingState).1.recorder.recording = true ∧
    (change_hotkey "cmd+d" recordingState).2.1.countP isRecorderStop = 0 := by decide

/-! ## Claim C9 counterexample -/

/-- C9 counterexample: the replacement string is not treated as literal
text — apply_replacements passes it to re.sub as a template, so the
two-character replacement backslash-n is interpreted as an escape and a
single newline is substituted, while the literal reading of the claim
would produce the two characters unchanged. -/
theorem C9_counterexample :
    apply_replacements "x" [("x", "\\n")] = Except.ok "\n" ∧
    literal_replace_spec "x" [("x", "\\n")] = "\\n" ∧
    ("\n" : String) ≠ "\\n" := by decide

/-! ## Claim C4 -/

/-- C4: on hotkey release, a returned buffer shorter than 8000 samples
(including the empty buffer) is discarded silently — no transcription
call, no injection; a buffer of at least 8000 samples (in particular
exactly 8000) is passed to the transcription engine, and the returned
text, when non-empty, is injected with the configured clipboard-clear
preference, while empty returned text is not injected. -/
theorem C4_min_recording_length (tf : List Sample → String) (s : AppState) :
    ((Recorder.stop s.recorder).2.length < 8000 →
      (on_hotkey_release tf s).2.countP isTranscribeCall = 0 ∧
      (on_hotkey_release tf s).2.countP isInjectText = 0) ∧
    (8000 ≤ (Recorder.stop s.recorder).2.length →
      Effect.transcribeCall (Recorder.stop s.recorder).2 ∈ (on_hotkey_release tf s).2 ∧
      (tf (Recorder.stop s.recorder).2 ≠ "" →
        Effect.injectText (tf (Recorder.stop s.recorder).2) s.config.clear_clipboard ∈
          (on_hotkey_release tf s).2) ∧
      (tf (Recorder.stop s.recorder).2 = "" →
        (on_hotkey_release tf s).2.countP isInjectText = 0)) := by
  have hstop : (Recorder.stop s.recorder).2 = s.recorder.buffer.flatten := rfl
  rw [hstop, on_hotkey_release_trace tf s]
  constructor
  · intro hlt
    by_cases h0 : s.recorder.buffer.flatten.length = 0
    · rw [if_pos h0]
      cases hmb : s.menubar <;>
        simp [isTranscribeCall, isInjectText, List.countP_append, List.countP_cons]
    · rw [if_neg h0, if_pos hlt]
      cases hmb : s.menubar <;>
        simp [isTranscribeCall, isInjectText, List.countP_append, List.countP_cons]
  · intro hge
    have h0 : ¬ s.recorder.buffer.flatten.length = 0 := by omega
    have h8 : ¬ s.recorder.buffer.flatten.length < 8000 := by omega
    rw [if_neg h0, if_neg h8]
    refine ⟨by cases hmb : s.menubar <;> simp, ?_, ?_⟩
    · intro hne
      cases hmb : s.menubar <;> simp [hne]
    · intro he
      rw [if_pos he]
      cases hmb : s.menubar <;>
        simp [isInjectText, List.countP_append, List.countP_cons]

/-- C4 witness: the theorem applied at the idle state (empty buffer,
shorter than 8000, discarded) and at the state holding exactly 8000
buffered samples (transcribed, and the non-empty result injected). -/
theorem C4_min_recording_length_witness :
    ((on_hotkey_release (fun _ => "hi") idleState).2.countP isTranscribeCall = 0 ∧
      (on_hotkey_release (fun _ => "hi") idleState).2.countP isInjectText = 0) ∧
    Effect.transcribeCall (Recorder.stop staleBufferState.recorder).2 ∈
      (on_hotkey_release (fun _ => "hi") staleBufferState).2 ∧
    Effect.injectText "hi" false ∈
      (on_hotkey_release (fun _ => "hi") staleBufferState).2 := by
  have hbuf : (Recorder.stop staleBufferState.recorder).2 =
      List.replicate 8000 (0 : Sample) := by
    have : (Recorder.stop staleBufferState.recorder).2 =
        staleBufferState.recorder.buffer.flatten := rfl
    rw [this]
    simp only [staleBufferState, idleState, List.flatten_cons, List.flatten_nil,
      List.append_nil]
  have hge : 8000 ≤ (Recorder.stop staleBufferState.recorder).2.length := by
    rw [hbuf, List.length_replicate]
  have h := (C4_min_recording_length (fun _ => "hi") staleBufferState).2 hge
  refine ⟨(C4_min_recording_length (fun _ => "hi") idleState).1 (by decide),
    h.1, ?_⟩
  have h2 := h.2.1 (by decide)
  exact h2

/-! ## Claim C1 (amended) -/

/-- C1 (amended): with an unparsable hotkey spec, the menu-bar rebinding
handler _on_hotkey_change leaves the persisted configuration unchanged
(no save effect), keeps the previously active capture installed with its
hotkey spec and held flag intact, and restarts it so it is running and
callable — but it reports the failure instead of raising it; the direct
change_hotkey method raises the parse error to the caller and leaves the
configuration unchanged, but the old capture, though still installed, is
left stopped rather than running. -/
theorem C1_amended_hotkey_failure (new_hotkey : String) (s : AppState)
    (e : HotkeyParseError) (hparse : parse_hotkey new_hotkey = Except.error e)
    (hne : pyTrim new_hotkey ≠ "") :
    ((change_hotkey new_hotkey s).2.2 = some e ∧
      (change_hotkey new_hotkey s).1.config = s.config ∧
      (change_hotkey new_hotkey s).2.1.countP isSaveConfig = 0 ∧
      (change_hotkey new_hotkey s).1.listener =
        { s.listener with running := false }) ∧
    ((on_hotkey_change new_hotkey s).1.config = s.config ∧
      (on_hotkey_change new_hotkey s).2.countP isSaveConfig = 0 ∧
      (on_hotkey_change new_hotkey s).1.listener.hotkey_config =
        s.listener.hotkey_config ∧
      (on_hotkey_change new_hotkey s).1.listener.hotkey_active =
        s.listener.hotkey_active ∧
      (on_hotkey_change new_hotkey s).1.listener.running = true) := by
  have hnew : HotkeyListener.new new_hotkey = Except.error e := by
    simp [HotkeyListener.new, hparse]
  constructor
  · simp [change_hotkey, hnew, ListenerState.stopTap, isSaveConfig,
      List.countP_cons]
  · by_cases hrec : s.recording <;>
      cases hmb : s.menubar <;>
        simp [on_hotkey_change, hne, hnew, hrec, hmb, ListenerState.stopTap,
          ListenerState.startTap, isSaveConfig, List.countP_append,
          List.countP_cons, Recorder.stop]

/-- C1 amended witness: the theorem applied at the bogus hotkey and the
concrete idle state. -/
theorem C1_amended_hotkey_failure_witness :
    (change_hotkey "bogus" idleState).2.2 =
      some (HotkeyParseError.unknownKey "bogus") ∧
    (on_hotkey_change "bogus" idleState).1.listener.running = true ∧
    (on_hotkey_change "bogus" idleState).2.countP isSaveConfig = 0 :=
  ⟨(C1_amended_hotkey_failure "bogus" idleState
      (HotkeyParseError.unknownKey "bogus") (by decide) (by decide)).1.1,
    (C1_amended_hotkey_failure "bogus" idleState
      (HotkeyParseError.unknownKey "bogus") (by decide) (by decide)).2.2.2.2.2,
    (C1_amended_hotkey_failure "bogus" idleState
      (HotkeyParseError.unknownKey "bogus") (by decide) (by decide)).2.2.1⟩

/-! ## Claim C3 (amended) -/

/-- C3 (amended): on the menu-bar rebinding entry point
_on_hotkey_change, a request issued while Recording first transitions to
Idle — the trace begins with the recorder stop and the UI recording-off
notification, strictly before the old capture's stop — and the stopped
buffer is discarded with no transcription and no injection; the direct
change_hotkey entry point, by contrast, does not cancel an in-flight
recording: it leaves the recorder and the recording flag untouched. -/
theorem C3_amended_rebind_cancels_recording (new_hotkey : String) (s : AppState)
    (hrec : s.recording = true) (hmb : s.menubar = true)
    (hne : pyTrim new_hotkey ≠ "") :
    (on_hotkey_change new_hotkey s).2.take 3 =
      [Effect.recorderStop, Effect.uiSetRecording false, Effect.listenerStop] ∧
    (on_hotkey_change new_hotkey s).1.recording = false ∧
    (on_hotkey_change new_hotkey s).1.recorder.recording = false ∧
    (on_hotkey_change new_hotkey s).2.countP isTranscribeCall = 0 ∧
    (on_hotkey_change new_hotkey s).2.countP isInjectText = 0 ∧
    (change_hotkey new_hotkey s).1.recorder = s.recorder ∧
    (change_hotkey new_hotkey s).1.recording = true := by
  have hch : (change_hotkey new_hotkey s).1.recorder = s.recorder ∧
      (change_hotkey new_hotkey s).1.recording = true := by
    unfold change_hotkey
    cases hnew : HotkeyListener.new new_hotkey <;> simp [hrec]
  refine ⟨?_, ?_, ?_, ?_, ?_, hch.1, hch.2⟩ <;>
    · unfold on_hotkey_change
      rw [if_neg hne]
      cases hnew : HotkeyListener.new new_hotkey <;>
        simp [hrec, hmb, Recorder.stop, ListenerState.stopTap,
          ListenerState.startTap, isTranscribeCall, isInjectText,
          List.countP_append, List.countP_cons]

/-- C3 amended witness: the theorem applied at the cmd+d hotkey and the
concrete recording state. -/
theorem C3_amended_rebind_cancels_recording_witness :
    (on_hotkey_change "cmd+d" recordingState).2.take 3 =
      [Effect.recorderStop, Effect.uiSetRecording false, Effect.listenerStop] ∧
    (on_hotkey_change "cmd+d" recordingState).1.recording = false ∧
    (change_hotkey "cmd+d" recordingState).1.recorder =
      recordingState.recorder :=
  ⟨(C3_amended_rebind_cancels_recording "cmd+d" recordingState
      (by decide) (by decide) (by decide)).1,
    (C3_amended_rebind_cancels_recording "cmd+d" recordingState
      (by decide) (by decide) (by decide)).2.1,
    (C3_amended_rebind_cancels_recording "cmd+d" recordingState
      (by decide) (by decide) (by decide)).2.2.2.2.2.1⟩

/-! ## Claim C5 -/

lemma parseParts_congr {ts us : List String} (hts : List.Forall₂ tokenEquiv ts us) :
    ∀ (mask : Nat) (acc : Option Nat),
      parseParts (ts.map normTok) mask acc = parseParts (us.map normTok) mask acc := by
  induction hts with
  | nil => intro mask acc; rfl
  | cons hab hrest ih =>
    intro mask acc
    rename_i a b ts' us'
    rcases hab with heq | ⟨hne0, hflag⟩
    · simp only [List.map_cons, parseParts, heq]
      cases hmf : MODIFIER_FLAGS (normTok b) with
      | some f => exact ih (mask ||| f) acc
      | none =>
        cases hk : KEYCODE_MAP (normTok b) with
        | some k =>
          cases acc with
          | some k0 => rfl
          | none => exact ih mask (some k)
        | none => rfl
    · obtain ⟨f, hf⟩ : ∃ f, MODIFIER_FLAGS (normTok a) = some f := by
        cases hx : MODIFIER_FLAGS (normTok a) with
        | some f => exact ⟨f, rfl⟩
        | none => exact absurd hx hne0
      have hfb : MODIFIER_FLAGS (normTok b) = some f := by rw [← hflag]; exact hf
      simp only [List.map_cons, parseParts, hf, hfb]
      exact ih (mask ||| f) acc

/-- C5: parsing is insensitive to token case, surrounding whitespace and
the choice among aliases of the same modifier — part lists that agree up
to the tokenEquiv relation parse identically — and concretely cmd+d,
command+D and COMMAND+d all yield the same HotkeySpec (the command mask
with the key code of d). -/
theorem C5_parse_case_alias_insensitive :
    (∀ ts us : List String, List.Forall₂ tokenEquiv ts us →
      parseParts (ts.map normTok) 0 none = parseParts (us.map normTok) 0 none) ∧
    parse_hotkey "cmd+d" = parse_hotkey "command+D" ∧
    parse_hotkey "command+D" = parse_hotkey "COMMAND+d" ∧
    parse_hotkey "cmd+d" =
      Except.ok { modifier_mask := kCGEventFlagMaskCommand, keycode := 2 } :=
  ⟨fun _ _ h => parseParts_congr h 0 none, by decide, by decide, by decide⟩

/-- C5 witness: the universally quantified conjunct applied at two
concrete equivalent part lists (the command alias swapped for meta, the
key token recased and padded). -/
theorem C5_parse_case_alias_insensitive_witness :
    parseParts (["cmd", "d"].map normTok) 0 none =
      parseParts (["Meta", " D "].map normTok) 0 none :=
  C5_parse_case_alias_insensitive.1 ["cmd", "d"] ["Meta", " D "]
    (List.Forall₂.cons (by decide)
      (List.Forall₂.cons (by decide) List.Forall₂.nil))

/-! ## Claim C6 -/

lemma parseParts_isOk (ts : List String) :
    ∀ (mask : Nat) (acc : Option Nat),
      ((parseParts ts mask acc).isOk = true ↔
        (ts.all isKnownTok = true ∧
          ts.countP isKeyTok + (if acc.isSome then 1 else 0) = 1)) := by
  induction ts with
  | nil =>
    intro mask acc
    cases acc <;> simp [parseParts, Except.isOk, Except.toBool]
  | cons t rest ih =>
    intro mask acc
    cases hmf : MODIFIER_FLAGS t with
    | some f =>
      have hkn : isKnownTok t = true := by simp [isKnownTok, hmf]
      have hkey : isKeyTok t = false := by simp [isKeyTok, hmf]
      simp [parseParts, hmf, hkn, hkey, ih]
    | none =>
      cases hk : KEYCODE_MAP t with
      | some k =>
        have hkn : isKnownTok t = true := by simp [isKnownTok, hmf, hk]
        have hkey : isKeyTok t = true := by simp [isKeyTok, hmf, hk]
        cases acc with
        | some k0 =>
          simp only [parseParts, hmf, hk]
          simp [Except.isOk, Except.toBool, hkey]
        | none =>
          simp only [parseParts, hmf, hk]
          rw [ih mask (some k)]
          simp [hkn, hkey]
      | none =>
        have hkn : isKnownTok t = false := by simp [isKnownTok, hmf, hk]
        simp [parseParts, hmf, hk, hkn, Except.isOk, Except.toBool]

lemma parseParts_noKey (ts : List String) :
    ∀ (mask : Nat), ts.all isKnownTok = true → ts.countP isKeyTok = 0 →
      parseParts ts mask none = Except.error HotkeyParseError.noKey := by
  induction ts with
  | nil => intro mask _ _; rfl
  | cons t rest ih =>
    intro mask hall hcnt
    simp only [List.all_cons, Bool.and_eq_true] at hall
    rw [List.countP_cons] at hcnt
    cases hmf : MODIFIER_FLAGS t with
    | some f =>
      simp only [parseParts, hmf]
      exact ih _ hall.2 (by omega)
    | none =>
      cases hk : KEYCODE_MAP t with
      | some k =>
        exfalso
        have : isKeyTok t = true := by simp [isKeyTok, hmf, hk]
        rw [this] at hcnt
        simp at hcnt
      | none =>
        exfalso
        have : isKnownTok t = false := by simp [isKnownTok, hmf, hk]
        rw [this] at hall
        simp at hall

lemma parseParts_multipleKeys (ts : List String) :
    ∀ (mask : Nat) (acc : Option Nat), ts.all isKnownTok = true →
      2 ≤ ts.countP isKeyTok + (if acc.isSome then 1 else 0) →
      parseParts ts mask acc = Except.error HotkeyParseError.multipleKeys := by
  induction ts with
  | nil =>
    intro mask acc _ h2
    exfalso
    cases acc <;> simp at h2
  | cons t rest ih =>
    intro mask acc hall h2
    simp only [List.all_cons, Bool.and_eq_true] at hall
    rw [List.countP_cons] at h2
    cases hmf : MODIFIER_FLAGS t with
    | some f =>
      have hkey : isKeyTok t = false := by simp [isKeyTok, hmf]
      simp only [hkey, if_false, Nat.add_zero] at h2
      simp only [parseParts, hmf]
      exact ih _ _ hall.2 h2
    | none =>
      cases hk : KEYCODE_MAP t with
      | some k =>
        have hkey : isKeyTok t = true := by simp [isKeyTok, hmf, hk]
        simp only [hkey, if_true] at h2
        cases acc with
        | some k0 => simp [parseParts, hmf, hk]
        | none =>
          simp only [parseParts, hmf, hk]
          refine ih _ (some k) hall.2 ?_
          have h2x : 2 ≤ rest.countP isKeyTok + 1 + 0 := h2
          show 2 ≤ rest.countP isKeyTok + 1
          omega
      | none =>
        exfalso
        have : isKnownTok t = false := by simp [isKnownTok, hmf, hk]
        rw [this] at hall
        simp at hall

lemma parseParts_unknown (ts : List String) :
    ∀ (mask : Nat) (acc : Option Nat),
      ts.countP isKeyTok + (if acc.isSome then 1 else 0) ≤ 1 →
      ts.all isKnownTok = false →
      ∃ t, t ∈ ts ∧
        parseParts ts mask acc = Except.error (HotkeyParseError.unknownKey t) ∧
        isKnownTok t = false := by
  induction ts with
  | nil => intro mask acc _ hall; simp at hall
  | cons t rest ih =>
    intro mask acc h1 hall
    rw [List.countP_cons] at h1
    cases hmf : MODIFIER_FLAGS t with
    | some f =>
      have hkn : isKnownTok t = true := by simp [isKnownTok, hmf]
      simp only [List.all_cons, hkn, Bool.true_and] at hall
      have hkey : isKeyTok t = false := by simp [isKeyTok, hmf]
      simp only [hkey, if_false, Nat.add_zero] at h1
      obtain ⟨u, hu1, hu2, hu3⟩ := ih (mask ||| f) acc h1 hall
      exact ⟨u, List.mem_cons_of_mem t hu1,
        by simp only [parseParts, hmf]; exact hu2, hu3⟩
    | none =>
      cases hk : KEYCODE_MAP t with
      | some k =>
        have hkn : isKnownTok t = true := by simp [isKnownTok, hmf, hk]
        simp only [List.all_cons, hkn, Bool.true_and] at hall
        have hkey : isKeyTok t = true := by simp [isKeyTok, hmf, hk]
        simp only [hkey, if_true] at h1
        cases acc with
        | some k0 => exfalso; simp at h1
        | none =>
          have h1r : rest.countP isKeyTok + (if (some k).isSome then 1 else 0) ≤ 1 := by
            have h1x : rest.countP isKeyTok + 1 + 0 ≤ 1 := h1
            show rest.countP isKeyTok + 1 ≤ 1
            omega
          obtain ⟨u, hu1, hu2, hu3⟩ := ih mask (some k) h1r hall
          exact ⟨u, List.mem_cons_of_mem t hu1,
            by simp only [parseParts, hmf, hk]; exact hu2, hu3⟩
      | none =>
        have hkn : isKnownTok t = false := by simp [isKnownTok, hmf, hk]
        exact ⟨t, List.mem_cons_self t rest, by simp [parseParts, hmf, hk], hkn⟩

lemma parse_hotkey_of_ne (s : String) (h : pyTrim s ≠ "") :
    parse_hotkey s = parseParts (tokenList s) 0 none := by
  simp [parse_hotkey, tokenList, h]

/-- C6: parse_hotkey fails exactly on the claimed inputs — it succeeds
precisely when the input is not blank, every token is a known modifier
alias or key name, and exactly one token is a non-modifier key; blank
input gives the empty-hotkey error, all-known tokens with no key give
the no-key error, all-known tokens with two or more keys give the
multiple-keys error, an unknown token (when at most one key token is
present) gives the unknown-key error naming an unknown token; and the
four concrete probes fail with the claimed categories. -/
theorem C6_parse_error_taxonomy :
    (∀ s : String, (parse_hotkey s).isOk = goodHotkey s) ∧
    (∀ s : String, pyTrim s = "" →
      parse_hotkey s = Except.error HotkeyParseError.emptyHotkey) ∧
    (∀ s : String, pyTrim s ≠ "" → (tokenList s).all isKnownTok = true →
      (tokenList s).countP isKeyTok = 0 →
      parse_hotkey s = Except.error HotkeyParseError.noKey) ∧
    (∀ s : String, pyTrim s ≠ "" → (tokenList s).all isKnownTok = true →
      2 ≤ (tokenList s).countP isKeyTok →
      parse_hotkey s = Except.error HotkeyParseError.multipleKeys) ∧
    (∀ s : String, pyTrim s ≠ "" → (tokenList s).countP isKeyTok ≤ 1 →
      (tokenList s).all isKnownTok = false →
      ∃ t, t ∈ tokenList s ∧
        parse_hotkey s = Except.error (HotkeyParseError.unknownKey t) ∧
        isKnownTok t = false) ∧
    parse_hotkey "" = Except.error HotkeyParseError.emptyHotkey ∧
    parse_hotkey "   " = Except.error HotkeyParseError.emptyHotkey ∧
    parse_hotkey "ctrl+shift" = Except.error HotkeyParseError.noKey ∧
    parse_hotkey "a+b" = Except.error HotkeyParseError.multipleKeys := by
  refine ⟨?_, ?_, ?_, ?_, ?_, by decide, by decide, by decide, by decide⟩
  · intro s
    by_cases h : pyTrim s = ""
    · simp [parse_hotkey, h, goodHotkey, Except.isOk, Except.toBool]
    · rw [parse_hotkey_of_ne s h, Bool.eq_iff_iff, parseParts_isOk]
      simp [goodHotkey, h, tokenList]
  · intro s h
    simp [parse_hotkey, h]
  · intro s h hall hcnt
    rw [parse_hotkey_of_ne s h]
    exact parseParts_noKey _ 0 hall hcnt
  · intro s h hall hcnt
    rw [parse_hotkey_of_ne s h]
    exact parseParts_multipleKeys _ 0 none hall (by simpa using hcnt)
  · intro s h hcnt hall
    rw [parse_hotkey_of_ne s h]
    exact parseParts_unknown _ 0 none (by simpa using hcnt) hall

/-- C6 witness: the hypothesis-bearing conjuncts applied at concrete
inputs — success on ctrl+space, and each error class at its probe. -/
theorem C6_parse_error_taxonomy_witness :
    (parse_hotkey "ctrl+space").isOk = goodHotkey "ctrl+space" ∧
    goodHotkey "ctrl+space" = true ∧
    parse_hotkey " " = Except.error HotkeyParseError.emptyHotkey ∧
    parse_hotkey "ctrl" = Except.error HotkeyParseError.noKey ∧
    parse_hotkey "a+b+c" = Except.error HotkeyParseError.multipleKeys ∧
    parse_hotkey "cmd+nope" = Except.error (HotkeyParseError.unknownKey "nope") := by
  refine ⟨C6_parse_error_taxonomy.1 "ctrl+space", by decide,
    C6_parse_error_taxonomy.2.1 " " (by decide),
    C6_parse_error_taxonomy.2.2.1 "ctrl" (by decide) (by decide) (by decide),
    C6_parse_error_taxonomy.2.2.2.1 "a+b+c" (by decide) (by decide) (by decide),
    ?_⟩
  obtain ⟨t, ht1, ht2, ht3⟩ :=
    C6_parse_error_taxonomy.2.2.2.2.1 "cmd+nope" (by decide) (by decide) (by decide)
  have heq : t = "nope" := by
    have hx : tokenList "cmd+nope" = ["cmd", "nope"] := by decide
    rw [hx, List.mem_cons, List.mem_cons] at ht1
    rcases ht1 with h | h | h
    · rw [h] at ht3; exact absurd ht3 (by decide)
    · exact h
    · simp at h
  rw [heq] at ht2
  exact ht2

/-! ## Claim C9 (amended) -/

lemma parseTemplate_no_backslash (r : List Char) (h : '\\' ∉ r) :
    parseTemplate r = Except.ok (r.map TemplateItem.literal) := by
  induction r with
  | nil => rfl
  | cons c cs ih =>
    rw [List.mem_cons, not_or] at h
    have hc : ¬ (c = '\\') := fun hq => h.1 hq.symm
    rw [List.map_cons, parseTemplate.eq_def]
    dsimp only
    rw [if_neg hc, ih h.2]
    rfl

lemma expandTemplate_literal (r m : List Char) :
    expandTemplate (r.map TemplateItem.literal) m = r := by
  induction r with
  | nil => rfl
  | cons c cs ih =>
    show [c] ++ expandTemplate (cs.map TemplateItem.literal) m = c :: cs
    rw [ih]
    rfl

lemma reSub_no_backslash (p r t : String) (h : '\\' ∉ r.data) :
    reSubEscapedIgnorecase p r t =
      Except.ok (if p.data.isEmpty then
        String.mk (subEmpty (r.data.map TemplateItem.literal) t.data)
      else String.mk (subScan p.data (r.data.map TemplateItem.literal) t.data)) := by
  unfold reSubEscapedIgnorecase
  rw [parseTemplate_no_backslash r.data h]
  exact (apply_ite Except.ok _ _ _).symm

lemma foldlM_reSub_literal (reps : List (String × String)) :
    ∀ text : String, (∀ pr ∈ reps, '\\' ∉ pr.2.data) →
      reps.foldlM (fun t pr => reSubEscapedIgnorecase pr.1 pr.2 t) text =
        Except.ok (reps.foldl
          (fun t pr =>
            if pr.1.data.isEmpty then
              String.mk (subEmpty (pr.2.data.map TemplateItem.literal) t.data)
            else
              String.mk (subScan pr.1.data (pr.2.data.map TemplateItem.literal) t.data))
          text) := by
  induction reps with
  | nil => intro text _; rfl
  | cons pr rest ih =>
    intro text h
    rw [List.foldlM_cons, List.foldl_cons,
      reSub_no_backslash pr.1 pr.2 text (h pr (List.mem_cons_self pr rest))]
    have hbind : ∀ (x : String) (f : String → Except ReplTemplateError String),
        (Except.ok x >>= f) = f x := fun x f => rfl
    rw [hbind]
    exact ih _ (fun q hq => h q (List.mem_cons_of_mem pr hq))

/-- C9 (amended): the replacement step applied before injection replaces
every occurrence of each pattern case-insensitively with the pattern
treated as literal text (re.escape), but the replacement string is
interpreted as a regex replacement template rather than literal text;
whenever no replacement value contains a backslash the step coincides
exactly with the claim's literal-replacement semantics. -/
theorem C9_amended_literal_when_no_backslash (text : String)
    (reps : List (String × String)) (h : ∀ pr ∈ reps, '\\' ∉ pr.2.data) :
    apply_replacements text reps = Except.ok (literal_replace_spec text reps) := by
  cases reps with
  | nil => rfl
  | cons pr rest =>
    have happ : apply_replacements text (pr :: rest) =
        (pr :: rest).foldlM (fun t q => reSubEscapedIgnorecase q.1 q.2 t) text := rfl
    rw [happ, foldlM_reSub_literal (pr :: rest) text h]
    rfl

/-- C9 amended witness: the theorem applied at a concrete text and a
backslash-free replacement table, with both sides evaluated. -/
theorem C9_amended_literal_when_no_backslash_witness :
    apply_replacements "Hello foo world FOO" [("foo", "bar")] =
      Except.ok (literal_replace_spec "Hello foo world FOO" [("foo", "bar")]) ∧
    literal_replace_spec "Hello foo world FOO" [("foo", "bar")] =
      "Hello bar world bar" :=
  ⟨C9_amended_literal_when_no_backslash "Hello foo world FOO" [("foo", "bar")]
      (by decide),
    by decide⟩

end Hanasu
